import Mathlib

/-!
Verification of the NetSentinel Kiosk Display Controller.

The controller lives in two React components (`App` and `Dashboard`).
We embed its state, its four effects (wake lock, alert cycling, view
cycling, schedule/sleep) and the PIN-gated settings guard as pure Lean
functions, model a display session as a list of actions folded over the
initial state, and prove the specified properties about it.
-/

/-- Device status enum, from the `device_status` SQL type and `types.ts`
(`ONLINE`, `OFFLINE`, `WARNING`, `CRITICAL`). -/
inductive DeviceStatus
  | ONLINE
  | OFFLINE
  | WARNING
  | CRITICAL
deriving DecidableEq, Repr

/-- The device fields the Dashboard component reads. -/
structure Device where
  id : String
  name : String
  ip : String
  status : DeviceStatus
  location : String
  cpuUsage : Nat
deriving DecidableEq, Repr

/-- `problematicDevices`: the subsequence of the device list whose status
is OFFLINE or CRITICAL (`Dashboard`, the `useMemo` filter). -/
def problematicDevices (devices : List Device) : List Device :=
  devices.filter fun d =>
    d.status == DeviceStatus.OFFLINE || d.status == DeviceStatus.CRITICAL

/-- The `viewMode` state of the Dashboard component. -/
inductive ViewMode
  | overview
  | topology
  | location
deriving DecidableEq, Repr

/-- The view-cycling updater passed to `setViewMode` in the view cycling
effect: overview to topology to location and back to overview. -/
def nextView : ViewMode → ViewMode
  | ViewMode.overview => ViewMode.topology
  | ViewMode.topology => ViewMode.location
  | ViewMode.location => ViewMode.overview

/-- JS `String.prototype.split` with a one-character separator, over
the character list of the string. -/
def splitChar (sep : Char) : List Char → List (List Char)
  | [] => [[]]
  | c :: cs =>
    if c = sep then [] :: splitChar sep cs
    else
      match splitChar sep cs with
      | [] => [[c]]
      | g :: gs => (c :: g) :: gs

/-- JS `Number(s)` on the strings a time input produces: a non-empty
all-digit string is read in base 10, anything else is `NaN`, modelled
as `none`. -/
def jsNumber (s : List Char) : Option Nat :=
  if s ≠ [] ∧ s.all (fun c => c.isDigit) then
    some (s.foldl (fun n c => n * 10 + (c.toNat - 48)) 0)
  else none

/-- `t.split(':').map(Number)` destructured as `[h, m]`, combined as
`h * 60 + m`.  A missing or non-numeric component makes the sum `NaN`,
modelled as `none`. -/
def parseClock (t : String) : Option Nat :=
  match (splitChar ':' t.toList).map jsNumber with
  | h :: m :: _ =>
    match h, m with
    | some hh, some mm => some (hh * 60 + mm)
    | _, _ => none
  | _ => none

/-- JS `<` on possibly-NaN numbers: any comparison with NaN is false. -/
def jsLt : Option Nat → Option Nat → Bool
  | some a, some b => decide (a < b)
  | _, _ => false

/-- JS `>=` on possibly-NaN numbers: any comparison with NaN is false. -/
def jsGe : Option Nat → Option Nat → Bool
  | some a, some b => decide (b ≤ a)
  | _, _ => false

/-- The `shouldBeAwake` computation inside `checkSchedule`:
same-day window when `startTotal < endTotal`, otherwise the overnight
(wrap-around) window. -/
def shouldBeAwake (startTotal endTotal : Option Nat) (currentTime : Nat) : Bool :=
  if jsLt startTotal endTotal then
    jsGe (some currentTime) startTotal && jsLt (some currentTime) endTotal
  else
    jsGe (some currentTime) startTotal || jsLt (some currentTime) endTotal

/-- Whether the host grants the screen wake lock: `supported` is
`'wakeLock' in navigator`, `granted` is whether
`navigator.wakeLock.request('screen')` resolves. -/
structure WakeEnv where
  supported : Bool
  granted : Bool
deriving DecidableEq, Repr

/-- The Dashboard component state relevant to the kiosk controller,
plus one armed flag per repeating timer (an armed flag is true exactly
when the corresponding `setInterval` is installed). -/
structure DashState where
  isKioskActive : Bool
  viewMode : ViewMode
  cycleInterval : Nat
  currentAlertIndex : Nat
  isSleeping : Bool
  scheduleEnabled : Bool
  startTime : String
  endTime : String
  isWakeLockActive : Bool
  wakeLockRef : Bool
  devices : List Device
  viewTimerArmed : Bool
  alertTimerArmed : Bool
  scheduleTimerArmed : Bool
deriving DecidableEq, Repr

/-- Body of `checkSchedule`: recompute `isSleeping` from the configured
window and the current minute-of-day. -/
def checkSchedule (now : Nat) (s : DashState) : DashState :=
  { s with isSleeping :=
      !(shouldBeAwake (parseClock s.startTime) (parseClock s.endTime) now) }

/-- The schedule effect body: when the schedule is disabled or kiosk
mode is off, force `isSleeping` false; otherwise run `checkSchedule`
immediately. -/
def scheduleEffect (now : Nat) (s : DashState) : DashState :=
  if !s.scheduleEnabled || !s.isKioskActive then
    { s with isSleeping := false }
  else
    checkSchedule now s

/-- The wake-lock effect body (`requestWakeLock`): acquire the sentinel
when kiosk mode is on and the API is supported (a rejected request is
caught and swallowed); release it when kiosk mode is off and a sentinel
is held, which fires the `release` listener that clears
`isWakeLockActive`. -/
def wakeLockEffect (env : WakeEnv) (s : DashState) : DashState :=
  if s.isKioskActive && env.supported then
    if env.granted then
      { s with wakeLockRef := true, isWakeLockActive := true }
    else
      s
  else if !s.isKioskActive && s.wakeLockRef then
    { s with wakeLockRef := false, isWakeLockActive := false }
  else
    s

/-- Recompute the armed flag of each repeating timer from its effect
gating condition, as the settled result of a render: the alert timer
runs iff kiosk mode is on and some device is problematic, the view
timer iff kiosk mode is on and the display is not sleeping, and the
schedule timer iff the schedule is enabled and kiosk mode is on. -/
def syncTimers (s : DashState) : DashState :=
  { s with
    alertTimerArmed :=
      s.isKioskActive && !((problematicDevices s.devices).length == 0)
    viewTimerArmed := s.isKioskActive && !s.isSleeping
    scheduleTimerArmed := s.scheduleEnabled && s.isKioskActive }

/-- One event of a display session: a settings mutation, a data refresh,
a timer tick, or the tap-to-wake click on the sleep overlay.  Events
that can trigger the immediate schedule evaluation carry the current
minute-of-day. -/
inductive Act
  | setKioskActive (b : Bool) (now : Nat)
  | setScheduleEnabled (b : Bool) (now : Nat)
  | setStartTime (t : String) (now : Nat)
  | setEndTime (t : String) (now : Nat)
  | setCycleInterval (n : Nat)
  | setDevices (ds : List Device)
  | viewTick
  | alertTick
  | scheduleTick (now : Nat)
  | tapWake
deriving Repr

/-- Apply one event: perform the state update, run the effect bodies
whose dependencies changed, then re-arm or cancel each timer per its
gating condition.  A `set` of an unchanged value bails out, as React
does.  Each tick fires only while its timer is armed. -/
def applyAct (env : WakeEnv) (a : Act) (s : DashState) : DashState :=
  syncTimers (match a with
  | Act.setKioskActive b now =>
    if b = s.isKioskActive then s
    else scheduleEffect now (wakeLockEffect env { s with isKioskActive := b })
  | Act.setScheduleEnabled b now =>
    if b = s.scheduleEnabled then s
    else scheduleEffect now { s with scheduleEnabled := b }
  | Act.setStartTime t now =>
    if t = s.startTime then s
    else scheduleEffect now { s with startTime := t }
  | Act.setEndTime t now =>
    if t = s.endTime then s
    else scheduleEffect now { s with endTime := t }
  | Act.setCycleInterval n => { s with cycleInterval := n }
  | Act.setDevices ds => { s with devices := ds }
  | Act.viewTick =>
    if s.viewTimerArmed then { s with viewMode := nextView s.viewMode } else s
  | Act.alertTick =>
    if s.alertTimerArmed then
      { s with currentAlertIndex :=
          (s.currentAlertIndex + 1) % (problematicDevices s.devices).length }
    else s
  | Act.scheduleTick now =>
    if s.scheduleTimerArmed then checkSchedule now s else s
  | Act.tapWake =>
    if s.isSleeping then { s with isSleeping := false } else s)

/-- The Dashboard state at mount: kiosk off, overview, 10 s cycle,
alert index 0, schedule off with the default 08:00 to 18:00 window, no
wake lock, no devices yet, no timer armed. -/
def initState : DashState :=
  { isKioskActive := false
    viewMode := ViewMode.overview
    cycleInterval := 10
    currentAlertIndex := 0
    isSleeping := false
    scheduleEnabled := false
    startTime := "08:00"
    endTime := "18:00"
    isWakeLockActive := false
    wakeLockRef := false
    devices := []
    viewTimerArmed := false
    alertTimerArmed := false
    scheduleTimerArmed := false }

/-- Run a display session: fold a list of events over a state. -/
def applyAll (env : WakeEnv) (acts : List Act) (s : DashState) : DashState :=
  acts.foldl (fun st a => applyAct env a st) s

/-- A state is reachable when some session starting at `initState`
produces it (under a fixed wake-lock environment). -/
def Reachable (env : WakeEnv) (s : DashState) : Prop :=
  ∃ acts : List Act, applyAll env acts initState = s

/-- Helper to display the rotating alert: the code renders
`problematicDevices[currentAlertIndex % problematicDevices.length]`
when the list is non-empty and no alert otherwise. -/
def activeAlertDevice (pd : List Device) (idx : Nat) : Option Device :=
  if 0 < pd.length then pd.get? (idx % pd.length) else none

/-- The updater the alert cycling interval passes to
`setCurrentAlertIndex`: advance modulo the problematic-list length. -/
def alertStep (len idx : Nat) : Nat :=
  (idx + 1) % len

/-- The user record the `App` component stores (`username`, `fullName`,
`role`, with roles `admin`, `viewer`, `kiosk`). -/
structure User where
  username : String
  fullName : String
  role : String
deriving DecidableEq, Repr

/-- The top-level navigation tab of the `App` component. -/
inductive Tab
  | dashboard
  | devices
  | ai
  | admin
deriving DecidableEq, Repr

/-- The `App` component state relevant to kiosk mode: the active tab,
the `NETSENTINEL_USER` localStorage entry, the in-memory user and the
kiosk flag. -/
structure AppState where
  activeTab : Tab
  storedUser : Option User
  currentUser : Option User
  isKioskActive : Bool
deriving DecidableEq, Repr

/-- The `App` effect on `isKioskActive`: if kiosk mode is on and the
current tab is neither the dashboard nor the AI-insights screen, jump
back to the dashboard. -/
def kioskTabEffect (s : AppState) : AppState :=
  if s.isKioskActive && !(s.activeTab == Tab.dashboard)
      && !(s.activeTab == Tab.ai) then
    { s with activeTab := Tab.dashboard }
  else s

/-- Setting the kiosk flag in `App` followed by the tab-restriction
effect that reacts to it. -/
def setIsKioskActive (b : Bool) (s : AppState) : AppState :=
  kioskTabEffect { s with isKioskActive := b }

/-- `handleLogout`: remove the stored session, clear the current user,
and force kiosk mode off. -/
def handleLogout (s : AppState) : AppState :=
  { s with storedUser := none, currentUser := none, isKioskActive := false }

/-- The session-restore effect run at mount: adopt the stored user, and
force kiosk mode on when the stored role is `kiosk`. -/
def restoreSession (s : AppState) : AppState :=
  match s.storedUser with
  | some u =>
    if u.role == "kiosk" then
      { s with currentUser := some u, isKioskActive := true }
    else
      { s with currentUser := some u }
  | none => s

/-- The Dashboard state behind the PIN-gated settings dialog. -/
structure PinState where
  authPin : String
  authError : String
  isAuthModalOpen : Bool
  isKioskSettingsOpen : Bool
deriving DecidableEq, Repr

/-- `localStorage.getItem('NETSENTINEL_KIOSK_PIN') || '0000'`: the
stored PIN, with the JS `||` default that also replaces an empty
string. -/
def storedPinOrDefault (stored : Option String) : String :=
  match stored with
  | some p => if p = "" then "0000" else p
  | none => "0000"

/-- `handleAuthSubmit`: on a PIN match close the auth dialog and open
the settings panel; on a mismatch set the error message and clear the
candidate input. -/
def handleAuthSubmit (stored : Option String) (s : PinState) : PinState :=
  if s.authPin = storedPinOrDefault stored then
    { s with isAuthModalOpen := false, isKioskSettingsOpen := true }
  else
    { s with authError := "Incorrect PIN", authPin := "" }

/-- `handleOpenKioskSettings`: toggle the settings panel closed if it
is open, otherwise reset the PIN entry and error and open the auth
dialog. -/
def handleOpenKioskSettings (s : PinState) : PinState :=
  if s.isKioskSettingsOpen then
    { s with isKioskSettingsOpen := false }
  else
    { s with authPin := "", authError := "", isAuthModalOpen := true }

/-- Typing into the PIN field (`setAuthPin` via the input handler). -/
def setAuthPin (p : String) (s : PinState) : PinState :=
  { s with authPin := p }

/-- Awake predicate exactly as the specification words it, for
comparison with the code's `shouldBeAwake`: same-day window when
`startMinutes < endMinutes` (inclusive on start, exclusive on end),
otherwise the overnight window. -/
def specAwake (startMinutes endMinutes nowMinutes : Nat) : Bool :=
  if startMinutes < endMinutes then
    decide (startMinutes ≤ nowMinutes) && decide (nowMinutes < endMinutes)
  else
    decide (nowMinutes ≥ startMinutes) || decide (nowMinutes < endMinutes)

/-! ### Basic lemmas about the effects -/

@[simp] theorem syncTimers_isKioskActive (s : DashState) :
    (syncTimers s).isKioskActive = s.isKioskActive := rfl

@[simp] theorem syncTimers_viewMode (s : DashState) :
    (syncTimers s).viewMode = s.viewMode := rfl

@[simp] theorem syncTimers_cycleInterval (s : DashState) :
    (syncTimers s).cycleInterval = s.cycleInterval := rfl

@[simp] theorem syncTimers_currentAlertIndex (s : DashState) :
    (syncTimers s).currentAlertIndex = s.currentAlertIndex := rfl

@[simp] theorem syncTimers_isSleeping (s : DashState) :
    (syncTimers s).isSleeping = s.isSleeping := rfl

@[simp] theorem syncTimers_scheduleEnabled (s : DashState) :
    (syncTimers s).scheduleEnabled = s.scheduleEnabled := rfl

@[simp] theorem syncTimers_startTime (s : DashState) :
    (syncTimers s).startTime = s.startTime := rfl

@[simp] theorem syncTimers_endTime (s : DashState) :
    (syncTimers s).endTime = s.endTime := rfl

@[simp] theorem syncTimers_isWakeLockActive (s : DashState) :
    (syncTimers s).isWakeLockActive = s.isWakeLockActive := rfl

@[simp] theorem syncTimers_wakeLockRef (s : DashState) :
    (syncTimers s).wakeLockRef = s.wakeLockRef := rfl

@[simp] theorem syncTimers_devices (s : DashState) :
    (syncTimers s).devices = s.devices := rfl

@[simp] theorem syncTimers_viewTimerArmed (s : DashState) :
    (syncTimers s).viewTimerArmed = (s.isKioskActive && !s.isSleeping) := rfl

@[simp] theorem syncTimers_alertTimerArmed (s : DashState) :
    (syncTimers s).alertTimerArmed
      = (s.isKioskActive && !((problematicDevices s.devices).length == 0)) := rfl

@[simp] theorem syncTimers_scheduleTimerArmed (s : DashState) :
    (syncTimers s).scheduleTimerArmed = (s.scheduleEnabled && s.isKioskActive) := rfl

@[simp] theorem checkSchedule_isKioskActive (now : Nat) (s : DashState) :
    (checkSchedule now s).isKioskActive = s.isKioskActive := rfl

@[simp] theorem checkSchedule_isWakeLockActive (now : Nat) (s : DashState) :
    (checkSchedule now s).isWakeLockActive = s.isWakeLockActive := rfl

@[simp] theorem checkSchedule_wakeLockRef (now : Nat) (s : DashState) :
    (checkSchedule now s).wakeLockRef = s.wakeLockRef := rfl

@[simp] theorem checkSchedule_scheduleEnabled (now : Nat) (s : DashState) :
    (checkSchedule now s).scheduleEnabled = s.scheduleEnabled := rfl

@[simp] theorem checkSchedule_devices (now : Nat) (s : DashState) :
    (checkSchedule now s).devices = s.devices := rfl

@[simp] theorem checkSchedule_viewMode (now : Nat) (s : DashState) :
    (checkSchedule now s).viewMode = s.viewMode := rfl

@[simp] theorem checkSchedule_currentAlertIndex (now : Nat) (s : DashState) :
    (checkSchedule now s).currentAlertIndex = s.currentAlertIndex := rfl

@[simp] theorem checkSchedule_isSleeping (now : Nat) (s : DashState) :
    (checkSchedule now s).isSleeping
      = !(shouldBeAwake (parseClock s.startTime) (parseClock s.endTime) now) := rfl

@[simp] theorem scheduleEffect_isKioskActive (now : Nat) (s : DashState) :
    (scheduleEffect now s).isKioskActive = s.isKioskActive := by
  unfold scheduleEffect
  split <;> rfl

@[simp] theorem scheduleEffect_isWakeLockActive (now : Nat) (s : DashState) :
    (scheduleEffect now s).isWakeLockActive = s.isWakeLockActive := by
  unfold scheduleEffect
  split <;> rfl

@[simp] theorem scheduleEffect_wakeLockRef (now : Nat) (s : DashState) :
    (scheduleEffect now s).wakeLockRef = s.wakeLockRef := by
  unfold scheduleEffect
  split <;> rfl

@[simp] theorem scheduleEffect_scheduleEnabled (now : Nat) (s : DashState) :
    (scheduleEffect now s).scheduleEnabled = s.scheduleEnabled := by
  unfold scheduleEffect
  split <;> rfl

@[simp] theorem scheduleEffect_devices (now : Nat) (s : DashState) :
    (scheduleEffect now s).devices = s.devices := by
  unfold scheduleEffect
  split <;> rfl

@[simp] theorem scheduleEffect_viewMode (now : Nat) (s : DashState) :
    (scheduleEffect now s).viewMode = s.viewMode := by
  unfold scheduleEffect
  split <;> rfl

@[simp] theorem scheduleEffect_currentAlertIndex (now : Nat) (s : DashState) :
    (scheduleEffect now s).currentAlertIndex = s.currentAlertIndex := by
  unfold scheduleEffect
  split <;> rfl

@[simp] theorem wakeLockEffect_isKioskActive (env : WakeEnv) (s : DashState) :
    (wakeLockEffect env s).isKioskActive = s.isKioskActive := by
  unfold wakeLockEffect
  split
  · split <;> rfl
  · split <;> rfl

@[simp] theorem wakeLockEffect_isSleeping (env : WakeEnv) (s : DashState) :
    (wakeLockEffect env s).isSleeping = s.isSleeping := by
  unfold wakeLockEffect
  split
  · split <;> rfl
  · split <;> rfl

@[simp] theorem wakeLockEffect_scheduleEnabled (env : WakeEnv) (s : DashState) :
    (wakeLockEffect env s).scheduleEnabled = s.scheduleEnabled := by
  unfold wakeLockEffect
  split
  · split <;> rfl
  · split <;> rfl

@[simp] theorem wakeLockEffect_startTime (env : WakeEnv) (s : DashState) :
    (wakeLockEffect env s).startTime = s.startTime := by
  unfold wakeLockEffect
  split
  · split <;> rfl
  · split <;> rfl

@[simp] theorem wakeLockEffect_endTime (env : WakeEnv) (s : DashState) :
    (wakeLockEffect env s).endTime = s.endTime := by
  unfold wakeLockEffect
  split
  · split <;> rfl
  · split <;> rfl

@[simp] theorem wakeLockEffect_devices (env : WakeEnv) (s : DashState) :
    (wakeLockEffect env s).devices = s.devices := by
  unfold wakeLockEffect
  split
  · split <;> rfl
  · split <;> rfl

@[simp] theorem wakeLockEffect_viewMode (env : WakeEnv) (s : DashState) :
    (wakeLockEffect env s).viewMode = s.viewMode := by
  unfold wakeLockEffect
  split
  · split <;> rfl
  · split <;> rfl

@[simp] theorem wakeLockEffect_currentAlertIndex (env : WakeEnv) (s : DashState) :
    (wakeLockEffect env s).currentAlertIndex = s.currentAlertIndex := by
  unfold wakeLockEffect
  split
  · split <;> rfl
  · split <;> rfl

@[simp] theorem wakeLockEffect_cycleInterval (env : WakeEnv) (s : DashState) :
    (wakeLockEffect env s).cycleInterval = s.cycleInterval := by
  unfold wakeLockEffect
  split
  · split <;> rfl
  · split <;> rfl

theorem wakeLockEffect_acquires (env : WakeEnv) (s : DashState)
    (hact : s.isKioskActive = true) (hs : env.supported = true)
    (hg : env.granted = true) :
    (wakeLockEffect env s).isWakeLockActive = true
      ∧ (wakeLockEffect env s).wakeLockRef = true := by
  simp [wakeLockEffect, hact, hs, hg]

theorem wakeLockEffect_releases (env : WakeEnv) (s : DashState)
    (hact : s.isKioskActive = false) :
    (wakeLockEffect env s).wakeLockRef = false
      ∧ ((s.isWakeLockActive = true → s.wakeLockRef = true) →
          (wakeLockEffect env s).isWakeLockActive = false) := by
  cases href : s.wakeLockRef with
  | true => simp [wakeLockEffect, hact, href]
  | false =>
    constructor
    · simp [wakeLockEffect, hact, href]
    · intro h
      have : s.isWakeLockActive = false := by
        cases hw : s.isWakeLockActive with
        | true => exact absurd (h hw) (by simp [href])
        | false => rfl
      simp [wakeLockEffect, hact, href, this]

theorem wakeLockEffect_failure (env : WakeEnv) (s : DashState)
    (hact : s.isKioskActive = true)
    (hfail : env.supported = false ∨ env.granted = false) :
    wakeLockEffect env s = s := by
  rcases hfail with hf | hf
  · simp [wakeLockEffect, hact, hf]
  · cases hsup : env.supported with
    | true => simp [wakeLockEffect, hact, hsup, hf]
    | false => simp [wakeLockEffect, hact, hsup]

/-! ### Timer-consistency invariant -/

/-- After any settled render, each timer is armed exactly when its
effect gating condition holds. -/
def timersConsistent (s : DashState) : Prop :=
  s.viewTimerArmed = (s.isKioskActive && !s.isSleeping)
    ∧ s.alertTimerArmed
        = (s.isKioskActive && !((problematicDevices s.devices).length == 0))
    ∧ s.scheduleTimerArmed = (s.scheduleEnabled && s.isKioskActive)

instance (s : DashState) : Decidable (timersConsistent s) := by
  unfold timersConsistent
  infer_instance

theorem syncTimers_consistent (s : DashState) : timersConsistent (syncTimers s) := by
  refine ⟨?_, ?_, ?_⟩ <;> simp

theorem applyAct_consistent (env : WakeEnv) (a : Act) (s : DashState) :
    timersConsistent (applyAct env a s) := by
  unfold applyAct
  exact syncTimers_consistent _

theorem applyAll_consistent (env : WakeEnv) (acts : List Act) (s : DashState)
    (h : timersConsistent s) : timersConsistent (applyAll env acts s) := by
  induction acts generalizing s with
  | nil => exact h
  | cons a rest ih => exact ih (applyAct env a s) (applyAct_consistent env a s)

theorem initState_consistent : timersConsistent initState := by
  decide

theorem reachable_consistent (env : WakeEnv) (s : DashState)
    (h : Reachable env s) : timersConsistent s := by
  obtain ⟨acts, rfl⟩ := h
  exact applyAll_consistent env acts initState initState_consistent

theorem syncTimers_eq_self (s : DashState) (h : timersConsistent s) :
    syncTimers s = s := by
  obtain ⟨h1, h2, h3⟩ := h
  unfold syncTimers
  rw [← h1, ← h2, ← h3]

/-! ### Wake-lock invariants -/

/-- When the host grants the wake lock, the sentinel and its status
flag both mirror the kiosk flag. -/
def wakeMirrors (s : DashState) : Prop :=
  s.isWakeLockActive = s.isKioskActive ∧ s.wakeLockRef = s.isKioskActive

theorem applyAct_wakeMirrors (env : WakeEnv) (a : Act) (s : DashState)
    (hs : env.supported = true) (hg : env.granted = true)
    (h : wakeMirrors s) : wakeMirrors (applyAct env a s) := by
  obtain ⟨h1, h2⟩ := h
  cases a with
  | setKioskActive b now =>
    by_cases hb : b = s.isKioskActive
    · simp [applyAct, hb, wakeMirrors, h1, h2]
    · cases b with
      | true =>
        have hacq := wakeLockEffect_acquires env { s with isKioskActive := true }
          rfl hs hg
        constructor <;>
          simp [applyAct, hb, wakeMirrors, hacq.1, hacq.2]
      | false =>
        have hact : s.isKioskActive = true := by
          cases hm : s.isKioskActive with
          | true => rfl
          | false => exact absurd hm.symm hb
        have hinv : s.isWakeLockActive = true → s.wakeLockRef = true := by
          intro _
          rw [h2, hact]
        have hrel := wakeLockEffect_releases env { s with isKioskActive := false }
          rfl
        have hheld := hrel.2 hinv
        have href := hrel.1
        constructor
        · simp [applyAct, hb, hheld]
        · simp [applyAct, hb, href]
  | setScheduleEnabled b now =>
    by_cases hb : b = s.scheduleEnabled <;>
      simp [applyAct, hb, wakeMirrors, h1, h2]
  | setStartTime t now =>
    by_cases hb : t = s.startTime <;>
      simp [applyAct, hb, wakeMirrors, h1, h2]
  | setEndTime t now =>
    by_cases hb : t = s.endTime <;>
      simp [applyAct, hb, wakeMirrors, h1, h2]
  | setCycleInterval n => simp [applyAct, wakeMirrors, h1, h2]
  | setDevices ds => simp [applyAct, wakeMirrors, h1, h2]
  | viewTick =>
    by_cases hb : s.viewTimerArmed <;>
      simp [applyAct, hb, wakeMirrors, h1, h2]
  | alertTick =>
    by_cases hb : s.alertTimerArmed <;>
      simp [applyAct, hb, wakeMirrors, h1, h2]
  | scheduleTick now =>
    by_cases hb : s.scheduleTimerArmed <;>
      simp [applyAct, hb, wakeMirrors, h1, h2]
  | tapWake =>
    by_cases hb : s.isSleeping <;>
      simp [applyAct, hb, wakeMirrors, h1, h2]

theorem applyAll_wakeMirrors (env : WakeEnv) (acts : List Act) (s : DashState)
    (hs : env.supported = true) (hg : env.granted = true)
    (h : wakeMirrors s) : wakeMirrors (applyAll env acts s) := by
  induction acts generalizing s with
  | nil => exact h
  | cons a rest ih =>
    exact ih (applyAct env a s) (applyAct_wakeMirrors env a s hs hg h)

theorem reachable_wakeMirrors (env : WakeEnv) (s : DashState)
    (hs : env.supported = true) (hg : env.granted = true)
    (h : Reachable env s) : wakeMirrors s := by
  obtain ⟨acts, rfl⟩ := h
  exact applyAll_wakeMirrors env acts initState hs hg (by constructor <;> rfl)

/-- When acquisition always fails, the wake lock is never held. -/
def wakeFree (s : DashState) : Prop :=
  s.isWakeLockActive = false ∧ s.wakeLockRef = false

theorem wakeLockEffect_wakeFree (env : WakeEnv) (s : DashState)
    (hfail : env.supported = false ∨ env.granted = false)
    (h : wakeFree s) : wakeFree (wakeLockEffect env s) := by
  obtain ⟨h1, h2⟩ := h
  rcases hfail with hf | hf
  · cases hact : s.isKioskActive <;> simp [wakeLockEffect, hact, hf, h1, h2, wakeFree]
  · cases hact : s.isKioskActive with
    | true =>
      cases hsup : env.supported <;>
        simp [wakeLockEffect, hact, hsup, hf, h1, h2, wakeFree]
    | false => simp [wakeLockEffect, hact, h1, h2, wakeFree]

theorem applyAct_wakeFree (env : WakeEnv) (a : Act) (s : DashState)
    (hfail : env.supported = false ∨ env.granted = false)
    (h : wakeFree s) : wakeFree (applyAct env a s) := by
  obtain ⟨h1, h2⟩ := h
  cases a with
  | setKioskActive b now =>
    by_cases hb : b = s.isKioskActive
    · simp [applyAct, hb, wakeFree, h1, h2]
    · have hw := wakeLockEffect_wakeFree env { s with isKioskActive := b } hfail
        ⟨h1, h2⟩
      constructor
      · simp only [applyAct, if_neg hb, syncTimers_isWakeLockActive,
          scheduleEffect_isWakeLockActive]
        exact hw.1
      · simp only [applyAct, if_neg hb, syncTimers_wakeLockRef,
          scheduleEffect_wakeLockRef]
        exact hw.2
  | setScheduleEnabled b now =>
    by_cases hb : b = s.scheduleEnabled <;>
      simp [applyAct, hb, wakeFree, h1, h2]
  | setStartTime t now =>
    by_cases hb : t = s.startTime <;>
      simp [applyAct, hb, wakeFree, h1, h2]
  | setEndTime t now =>
    by_cases hb : t = s.endTime <;>
      simp [applyAct, hb, wakeFree, h1, h2]
  | setCycleInterval n => simp [applyAct, wakeFree, h1, h2]
  | setDevices ds => simp [applyAct, wakeFree, h1, h2]
  | viewTick =>
    by_cases hb : s.viewTimerArmed <;>
      simp [applyAct, hb, wakeFree, h1, h2]
  | alertTick =>
    by_cases hb : s.alertTimerArmed <;>
      simp [applyAct, hb, wakeFree, h1, h2]
  | scheduleTick now =>
    by_cases hb : s.scheduleTimerArmed <;>
      simp [applyAct, hb, wakeFree, h1, h2]
  | tapWake =>
    by_cases hb : s.isSleeping <;>
      simp [applyAct, hb, wakeFree, h1, h2]

theorem applyAll_wakeFree (env : WakeEnv) (acts : List Act) (s : DashState)
    (hfail : env.supported = false ∨ env.granted = false)
    (h : wakeFree s) : wakeFree (applyAll env acts s) := by
  induction acts generalizing s with
  | nil => exact h
  | cons a rest ih =>
    exact ih (applyAct env a s) (applyAct_wakeFree env a s hfail h)

theorem reachable_wakeFree (env : WakeEnv) (s : DashState)
    (hfail : env.supported = false ∨ env.granted = false)
    (h : Reachable env s) : wakeFree s := by
  obtain ⟨acts, rfl⟩ := h
  exact applyAll_wakeFree env acts initState hfail (by constructor <;> rfl)

/-! ### Concrete fixtures for witnesses and counterexamples -/

/-- A host environment that supports and grants the wake lock. -/
def envTT : WakeEnv := { supported := true, granted := true }

/-- A problematic (offline) device. -/
def devOff1 : Device :=
  { id := "d1", name := "Core Switch", ip := "10.0.0.1"
    status := DeviceStatus.OFFLINE, location := "Data Center A", cpuUsage := 0 }

/-- A problematic (critical) device. -/
def devCrit1 : Device :=
  { id := "d2", name := "Edge Router", ip := "10.0.0.2"
    status := DeviceStatus.CRITICAL, location := "Data Center B", cpuUsage := 97 }

/-- A second offline device. -/
def devOff2 : Device :=
  { id := "d3", name := "Access Point", ip := "10.0.0.3"
    status := DeviceStatus.OFFLINE, location := "Office", cpuUsage := 0 }

/-- A second critical device. -/
def devCrit2 : Device :=
  { id := "d4", name := "Firewall", ip := "10.0.0.4"
    status := DeviceStatus.CRITICAL, location := "Data Center A", cpuUsage := 99 }

/-- A healthy device, filtered out of the problematic list. -/
def devOk : Device :=
  { id := "d5", name := "NAS", ip := "10.0.0.5"
    status := DeviceStatus.ONLINE, location := "Office", cpuUsage := 12 }

/-- Session: activate kiosk mode at 10:00 with no devices. -/
def sActive : DashState :=
  applyAll envTT [Act.setKioskActive true 600] initState

/-- Session: load two problematic devices, then activate kiosk mode at
10:00. -/
def sAlerts : DashState :=
  applyAll envTT
    [Act.setDevices [devOff1, devCrit1, devOk], Act.setKioskActive true 600]
    initState

/-- The events of a session that ends asleep: two problematic devices,
kiosk mode on at 20:00, schedule enabled at 20:00 with the default
08:00 to 18:00 window. -/
def actsAsleep : List Act :=
  [Act.setDevices [devOff1, devCrit1, devOk],
   Act.setKioskActive true 1200,
   Act.setScheduleEnabled true 1200]

/-- The sleeping state those events produce. -/
def sAsleep : DashState := applyAll envTT actsAsleep initState

/-- The events of a session whose alert index outgrew a shrunken list:
four problematic devices, kiosk on, three alert ticks (index 3), then
a refresh that leaves only three problematic devices. -/
def actsShrunk : List Act :=
  [Act.setDevices [devOff1, devCrit1, devOff2, devCrit2],
   Act.setKioskActive true 600,
   Act.alertTick, Act.alertTick, Act.alertTick,
   Act.setDevices [devOff1, devCrit1, devOff2]]

/-- The state those events produce: alert index 3 over a
three-element problematic list. -/
def sShrunk : DashState := applyAll envTT actsShrunk initState

/-! ### Helper lemmas shared between claims -/

/-- The code's awake test agrees with the specification's awake
predicate on well-formed (non-NaN) minute totals. -/
theorem shouldBeAwake_some (a b c : Nat) :
    shouldBeAwake (some a) (some b) c = specAwake a b c := by
  by_cases h : a < b <;> simp [shouldBeAwake, specAwake, jsLt, jsGe, h]

/-- On a settled state, an alert tick with kiosk mode on and a
non-empty problematic list advances the index modulo the list
length. -/
theorem alertTick_advances (env : WakeEnv) (s : DashState)
    (hcons : timersConsistent s) (hact : s.isKioskActive = true)
    (hlen : (problematicDevices s.devices).length ≠ 0) :
    (applyAct env Act.alertTick s).currentAlertIndex
      = (s.currentAlertIndex + 1) % (problematicDevices s.devices).length := by
  have harm : s.alertTimerArmed = true := by
    rw [hcons.2.1, hact]
    simp [hlen]
  simp [applyAct, harm]

/-- On a settled state with no problematic device, the alert timer is
not armed, so an alert tick leaves the state unchanged. -/
theorem alertTick_noop (env : WakeEnv) (s : DashState)
    (hcons : timersConsistent s)
    (hlen : (problematicDevices s.devices).length = 0) :
    applyAct env Act.alertTick s = s := by
  have harm : s.alertTimerArmed = false := by
    rw [hcons.2.1, hlen]
    simp
  simp [applyAct, harm, syncTimers_eq_self s hcons]

/-- A view tick on a settled state whose view timer is not armed
changes nothing. -/
theorem viewTick_noop_unarmed (env : WakeEnv) (s : DashState)
    (hcons : timersConsistent s) (harm : s.viewTimerArmed = false) :
    applyAct env Act.viewTick s = s := by
  simp [applyAct, harm, syncTimers_eq_self s hcons]

/-- An alert tick on a settled state whose alert timer is not armed
changes nothing. -/
theorem alertTick_noop_unarmed (env : WakeEnv) (s : DashState)
    (hcons : timersConsistent s) (harm : s.alertTimerArmed = false) :
    applyAct env Act.alertTick s = s := by
  simp [applyAct, harm, syncTimers_eq_self s hcons]

/-- A schedule tick on a settled state whose schedule timer is not
armed changes nothing. -/
theorem scheduleTick_noop_unarmed (env : WakeEnv) (now : Nat) (s : DashState)
    (hcons : timersConsistent s) (harm : s.scheduleTimerArmed = false) :
    applyAct env (Act.scheduleTick now) s = s := by
  simp [applyAct, harm, syncTimers_eq_self s hcons]

/-- On a settled sleeping state the view timer is not armed, so a view
tick leaves the state unchanged. -/
theorem viewTick_noop_sleeping (env : WakeEnv) (s : DashState)
    (hcons : timersConsistent s) (hsl : s.isSleeping = true) :
    applyAct env Act.viewTick s = s := by
  refine viewTick_noop_unarmed env s hcons ?_
  rw [hcons.1, hsl]
  simp

/-- `kioskTabEffect` sends any tab other than the dashboard and the
AI screen back to the dashboard while kiosk mode is on. -/
theorem kioskTabEffect_forces_dashboard (s : AppState)
    (h : s.isKioskActive = true)
    (h1 : s.activeTab ≠ Tab.dashboard) (h2 : s.activeTab ≠ Tab.ai) :
    (kioskTabEffect s).activeTab = Tab.dashboard := by
  have hc : (s.isKioskActive && !(s.activeTab == Tab.dashboard)
      && !(s.activeTab == Tab.ai)) = true := by
    simp [h, h1, h2]
  simp [kioskTabEffect, hc]

/-! ### C1: the sleep scheduler -/

/-- C1: with the schedule enabled and kiosk mode active, every
evaluation of the sleep scheduler sets `isSleeping` to the negation of
the awake predicate stated by the spec (same-day window
`startMinutes ≤ now < endMinutes` when `startMinutes < endMinutes`,
otherwise the overnight disjunction); in particular with `start=22:00`
and `end=06:00` the controller is awake at 23:30 and at 05:00 and
asleep at 12:00. -/
theorem sleep_scheduler_matches_spec (env : WakeEnv) (s : DashState)
    (now startM endM : Nat)
    (hcons : timersConsistent s)
    (hsch : s.scheduleEnabled = true) (hact : s.isKioskActive = true)
    (hps : parseClock s.startTime = some startM)
    (hpe : parseClock s.endTime = some endM) :
    (applyAct env (Act.scheduleTick now) s).isSleeping
      = !(specAwake startM endM now)
    ∧ shouldBeAwake (parseClock "22:00") (parseClock "06:00") (23 * 60 + 30) = true
    ∧ shouldBeAwake (parseClock "22:00") (parseClock "06:00") (5 * 60) = true
    ∧ shouldBeAwake (parseClock "22:00") (parseClock "06:00") (12 * 60) = false := by
  have harm : s.scheduleTimerArmed = true := by
    rw [hcons.2.2, hsch, hact]
    rfl
  refine ⟨?_, by decide, by decide, by decide⟩
  simp [applyAct, harm, hps, hpe, shouldBeAwake_some]

/-- Witness for C1 at the sleeping fixture state, evaluated at 12:00
against the default 08:00 to 18:00 window. -/
theorem sleep_scheduler_matches_spec_witness :
    (applyAct envTT (Act.scheduleTick 720) sAsleep).isSleeping
      = !(specAwake 480 1080 720)
    ∧ shouldBeAwake (parseClock "22:00") (parseClock "06:00") (23 * 60 + 30) = true
    ∧ shouldBeAwake (parseClock "22:00") (parseClock "06:00") (5 * 60) = true
    ∧ shouldBeAwake (parseClock "22:00") (parseClock "06:00") (12 * 60) = false :=
  sleep_scheduler_matches_spec envTT sAsleep 720 480 1080
    (by decide) (by decide) (by decide) (by decide) (by decide)

/-! ### C2: activation restricts navigation -/

/-- C2: when kiosk mode turns on while the current top-level screen is
neither the dashboard (the overview surface) nor the AI-insights
screen, the `App` effect forces the screen back to the dashboard, and
it does so for every such screen. -/
theorem kiosk_activation_restricts_nav (s : AppState)
    (_hprev : s.isKioskActive = false)
    (h1 : s.activeTab ≠ Tab.dashboard) (h2 : s.activeTab ≠ Tab.ai) :
    (setIsKioskActive true s).activeTab = Tab.dashboard
    ∧ ∀ t : Tab, t ≠ Tab.dashboard → t ≠ Tab.ai →
        (setIsKioskActive true { s with activeTab := t }).activeTab
          = Tab.dashboard := by
  constructor
  · exact kioskTabEffect_forces_dashboard { s with isKioskActive := true }
      rfl h1 h2
  · intro t ht1 ht2
    exact kioskTabEffect_forces_dashboard
      { s with isKioskActive := true, activeTab := t } rfl ht1 ht2

/-- Witness for C2: activating on the device-manager screen jumps to
the dashboard, and so does activating on the admin screen. -/
theorem kiosk_activation_restricts_nav_witness :
    (setIsKioskActive true
      { activeTab := Tab.devices, storedUser := none, currentUser := none,
        isKioskActive := false }).activeTab = Tab.dashboard
    ∧ (setIsKioskActive true
        { activeTab := Tab.admin, storedUser := none, currentUser := none,
          isKioskActive := false }).activeTab = Tab.dashboard :=
  ⟨(kiosk_activation_restricts_nav
      { activeTab := Tab.devices, storedUser := none, currentUser := none,
        isKioskActive := false } rfl (by decide) (by decide)).1,
   (kiosk_activation_restricts_nav
      { activeTab := Tab.devices, storedUser := none, currentUser := none,
        isKioskActive := false } rfl (by decide) (by decide)).2
     Tab.admin (by decide) (by decide)⟩

/-! ### C3: what sleeping suppresses -/

/-- C3 counterexample: in the reachable sleeping fixture state the
alert rotator still advances `currentAlertIndex`, so it is false that
no tick changes `alertIndex` while `sleeping` holds. -/
theorem sleeping_alert_rotator_cex :
    Reachable envTT sAsleep ∧ sAsleep.isSleeping = true
    ∧ (applyAct envTT Act.alertTick sAsleep).currentAlertIndex
        ≠ sAsleep.currentAlertIndex :=
  ⟨⟨actsAsleep, rfl⟩, by decide, by decide⟩

/-- C3 amended: in every reachable state with `sleeping = true` a view
tick changes nothing, but the alert rotator keeps advancing whenever
kiosk mode is on and the problematic list is non-empty (only its badge
is suppressed visually). -/
theorem sleeping_halts_view_rotator_only (env : WakeEnv) (s : DashState)
    (hr : Reachable env s) (hsl : s.isSleeping = true) :
    applyAct env Act.viewTick s = s
    ∧ (s.isKioskActive = true → (problematicDevices s.devices).length ≠ 0 →
        (applyAct env Act.alertTick s).currentAlertIndex
          = (s.currentAlertIndex + 1) % (problematicDevices s.devices).length) := by
  have hcons := reachable_consistent env s hr
  exact ⟨viewTick_noop_sleeping env s hcons hsl,
    fun hact hlen => alertTick_advances env s hcons hact hlen⟩

/-! ### C4: deactivation cancels everything at once -/

/-- C4: from any kiosk-active state, the single step that sets
`isKioskActive` false cancels the view, alert and schedule timers,
releases the wake-lock sentinel and clears its status flag, and forces
`isSleeping` false; afterwards no view, alert or schedule tick changes
the state. -/
theorem deactivation_cancels_everything (env : WakeEnv) (now : Nat)
    (s : DashState) (hact : s.isKioskActive = true)
    (hwl : s.isWakeLockActive = true → s.wakeLockRef = true) :
    (applyAct env (Act.setKioskActive false now) s).viewTimerArmed = false
    ∧ (applyAct env (Act.setKioskActive false now) s).alertTimerArmed = false
    ∧ (applyAct env (Act.setKioskActive false now) s).scheduleTimerArmed = false
    ∧ (applyAct env (Act.setKioskActive false now) s).wakeLockRef = false
    ∧ (applyAct env (Act.setKioskActive false now) s).isWakeLockActive = false
    ∧ (applyAct env (Act.setKioskActive false now) s).isSleeping = false
    ∧ applyAct env Act.viewTick (applyAct env (Act.setKioskActive false now) s)
        = applyAct env (Act.setKioskActive false now) s
    ∧ applyAct env Act.alertTick (applyAct env (Act.setKioskActive false now) s)
        = applyAct env (Act.setKioskActive false now) s
    ∧ ∀ now2 : Nat,
        applyAct env (Act.scheduleTick now2)
            (applyAct env (Act.setKioskActive false now) s)
          = applyAct env (Act.setKioskActive false now) s := by
  have hb : ¬(false = s.isKioskActive) := by simp [hact]
  have hrel := wakeLockEffect_releases env { s with isKioskActive := false } rfl
  have href := hrel.1
  have hheld := hrel.2 hwl
  have hact2 : (applyAct env (Act.setKioskActive false now) s).isKioskActive
      = false := by
    simp [applyAct, hb]
  have hsl2 : (applyAct env (Act.setKioskActive false now) s).isSleeping
      = false := by
    simp only [applyAct, if_neg hb, syncTimers_isSleeping]
    have : (wakeLockEffect env { s with isKioskActive := false }).isKioskActive
        = false := by simp
    simp [scheduleEffect, this]
  have hcons := applyAct_consistent env (Act.setKioskActive false now) s
  have hview : (applyAct env (Act.setKioskActive false now) s).viewTimerArmed
      = false := by
    rw [hcons.1, hact2]
    rfl
  have halert : (applyAct env (Act.setKioskActive false now) s).alertTimerArmed
      = false := by
    rw [hcons.2.1, hact2]
    rfl
  have hsched :
      (applyAct env (Act.setKioskActive false now) s).scheduleTimerArmed
        = false := by
    rw [hcons.2.2, hact2]
    simp
  refine ⟨hview, halert, hsched, ?_, ?_, hsl2, ?_, ?_, ?_⟩
  · simp [applyAct, hb, href]
  · simp [applyAct, hb, hheld]
  · exact viewTick_noop_unarmed env _ hcons hview
  · exact alertTick_noop_unarmed env _ hcons halert
  · intro now2
    exact scheduleTick_noop_unarmed env now2 _ hcons hsched

/-- Witness for C4: deactivating the sleeping fixture state (which
holds the wake lock) at 20:10. -/
theorem deactivation_cancels_everything_witness :
    (applyAct envTT (Act.setKioskActive false 1210) sAsleep).viewTimerArmed = false
    ∧ (applyAct envTT (Act.setKioskActive false 1210) sAsleep).alertTimerArmed
        = false
    ∧ (applyAct envTT (Act.setKioskActive false 1210) sAsleep).scheduleTimerArmed
        = false
    ∧ (applyAct envTT (Act.setKioskActive false 1210) sAsleep).wakeLockRef = false
    ∧ (applyAct envTT (Act.setKioskActive false 1210) sAsleep).isWakeLockActive
        = false
    ∧ (applyAct envTT (Act.setKioskActive false 1210) sAsleep).isSleeping = false
    ∧ applyAct envTT Act.viewTick
          (applyAct envTT (Act.setKioskActive false 1210) sAsleep)
        = applyAct envTT (Act.setKioskActive false 1210) sAsleep
    ∧ applyAct envTT Act.alertTick
          (applyAct envTT (Act.setKioskActive false 1210) sAsleep)
        = applyAct envTT (Act.setKioskActive false 1210) sAsleep
    ∧ ∀ now2 : Nat,
        applyAct envTT (Act.scheduleTick now2)
            (applyAct envTT (Act.setKioskActive false 1210) sAsleep)
          = applyAct envTT (Act.setKioskActive false 1210) sAsleep :=
  deactivation_cancels_everything envTT 1210 sAsleep (by decide) (by decide)

/-! ### C5: the view rotator cycle -/

/-- C5: on any reachable state with the cycle interval in `[5, 300]`,
kiosk mode on and the display awake, a view tick advances `viewMode`
along the fixed cycle overview, topology, location, overview — and the
cycle function admits no other transition; the tick touches neither
the alert index nor the sleep flag. -/
theorem view_rotator_round_robin (env : WakeEnv) (s : DashState)
    (hr : Reachable env s)
    (_hlo : 5 ≤ s.cycleInterval) (_hhi : s.cycleInterval ≤ 300)
    (hact : s.isKioskActive = true) (hsl : s.isSleeping = false) :
    (applyAct env Act.viewTick s).viewMode = nextView s.viewMode
    ∧ nextView ViewMode.overview = ViewMode.topology
    ∧ nextView ViewMode.topology = ViewMode.location
    ∧ nextView ViewMode.location = ViewMode.overview
    ∧ (applyAct env Act.viewTick s).currentAlertIndex = s.currentAlertIndex
    ∧ (applyAct env Act.viewTick s).isSleeping = s.isSleeping := by
  have hcons := reachable_consistent env s hr
  have harm : s.viewTimerArmed = true := by
    rw [hcons.1, hact, hsl]
    rfl
  refine ⟨?_, rfl, rfl, rfl, ?_, ?_⟩ <;> simp [applyAct, harm]

/-- Witness for C5 at the active fixture state (interval 10). -/
theorem view_rotator_round_robin_witness :
    (applyAct envTT Act.viewTick sActive).viewMode = nextView sActive.viewMode
    ∧ nextView ViewMode.overview = ViewMode.topology
    ∧ nextView ViewMode.topology = ViewMode.location
    ∧ nextView ViewMode.location = ViewMode.overview
    ∧ (applyAct envTT Act.viewTick sActive).currentAlertIndex
        = sActive.currentAlertIndex
    ∧ (applyAct envTT Act.viewTick sActive).isSleeping = sActive.isSleeping :=
  view_rotator_round_robin envTT sActive
    ⟨[Act.setKioskActive true 600], rfl⟩
    (by decide) (by decide) (by decide) (by decide)

/-! ### C6: the alert rotator is safe -/

/-- C6: on any reachable state, an alert tick with a non-empty
problematic list advances the index modulo the list length; with an
empty list the tick is a no-op and no alert is displayed; and the
displayed device, recomputed per render as
`problematicDevices[alertIndex % length]`, is an in-range element for
every index. -/
theorem alert_rotator_safe (env : WakeEnv) (s : DashState)
    (hr : Reachable env s) :
    (s.isKioskActive = true → (problematicDevices s.devices).length ≠ 0 →
      (applyAct env Act.alertTick s).currentAlertIndex
        = (s.currentAlertIndex + 1) % (problematicDevices s.devices).length)
    ∧ ((problematicDevices s.devices).length = 0 →
      applyAct env Act.alertTick s = s
        ∧ activeAlertDevice (problematicDevices s.devices)
            s.currentAlertIndex = none)
    ∧ (∀ (pd : List Device) (i : Nat), pd.length ≠ 0 →
        i % pd.length < pd.length ∧ ∃ d, activeAlertDevice pd i = some d) := by
  have hcons := reachable_consistent env s hr
  refine ⟨fun hact hlen => alertTick_advances env s hcons hact hlen,
    fun hlen => ⟨alertTick_noop env s hcons hlen, ?_⟩, ?_⟩
  · simp [activeAlertDevice, hlen]
  · intro pd i hlen
    have hlt : i % pd.length < pd.length :=
      Nat.mod_lt i (Nat.pos_of_ne_zero hlen)
    refine ⟨hlt, pd.get ⟨i % pd.length, hlt⟩, ?_⟩
    simp [activeAlertDevice, Nat.pos_of_ne_zero hlen, List.get?_eq_get hlt]

/-- Witness for C6: one advancing tick on the two-alert fixture state,
one inert tick on the device-free fixture state, and an in-range
display lookup. -/
theorem alert_rotator_safe_witness :
    (applyAct envTT Act.alertTick sAlerts).currentAlertIndex
      = (sAlerts.currentAlertIndex + 1)
          % (problematicDevices sAlerts.devices).length
    ∧ applyAct envTT Act.alertTick sActive = sActive
    ∧ activeAlertDevice (problematicDevices sActive.devices)
        sActive.currentAlertIndex = none
    ∧ 7 % (problematicDevices sAlerts.devices).length
        < (problematicDevices sAlerts.devices).length
    ∧ ∃ d, activeAlertDevice (problematicDevices sAlerts.devices) 7 = some d :=
  ⟨(alert_rotator_safe envTT sAlerts
      ⟨[Act.setDevices [devOff1, devCrit1, devOk], Act.setKioskActive true 600],
        rfl⟩).1 (by decide) (by decide),
   ((alert_rotator_safe envTT sActive
      ⟨[Act.setKioskActive true 600], rfl⟩).2.1 (by decide)).1,
   ((alert_rotator_safe envTT sActive
      ⟨[Act.setKioskActive true 600], rfl⟩).2.1 (by decide)).2,
   ((alert_rotator_safe envTT sAlerts
      ⟨[Act.setDevices [devOff1, devCrit1, devOk], Act.setKioskActive true 600],
        rfl⟩).2.2 (problematicDevices sAlerts.devices) 7 (by decide)).1,
   ((alert_rotator_safe envTT sAlerts
      ⟨[Act.setDevices [devOff1, devCrit1, devOk], Act.setKioskActive true 600],
        rfl⟩).2.2 (problematicDevices sAlerts.devices) 7 (by decide)).2⟩

/-! ### C7: three ticks at length three -/

/-- C7 counterexample: the fixture session leaves alert index 3 over a
problematic list of length 3 (the list shrank after the index had
advanced), and three further alert ticks land on index 0, not back on
3 — so, for that reachable starting index, three ticks do not return
`alertIndex` to its starting value. -/
theorem alert_period_three_cex :
    Reachable envTT sShrunk
    ∧ (problematicDevices sShrunk.devices).length = 3
    ∧ sShrunk.currentAlertIndex = 3
    ∧ (applyAct envTT Act.alertTick
        (applyAct envTT Act.alertTick
          (applyAct envTT Act.alertTick sShrunk))).currentAlertIndex
        ≠ sShrunk.currentAlertIndex :=
  ⟨⟨actsShrunk, rfl⟩, by decide, by decide, by decide⟩

/-- C7 amended: at problematic-list length 3, three alert ticks return
`alertIndex` to its starting value for every starting index below 3
(in particular every index the rotator itself produces at that
length); in general three ticks land on `alertIndex mod 3`, so the
displayed device always returns to its starting value; and with
length 0 no tick changes anything and no alert is displayed. -/
theorem alert_period_three_amended (i : Nat) :
    (i < 3 → alertStep 3 (alertStep 3 (alertStep 3 i)) = i)
    ∧ alertStep 3 (alertStep 3 (alertStep 3 i)) = i % 3
    ∧ (∀ pd : List Device, pd.length = 3 →
        activeAlertDevice pd (alertStep 3 (alertStep 3 (alertStep 3 i)))
          = activeAlertDevice pd i)
    ∧ (∀ (env : WakeEnv) (s : DashState), Reachable env s →
        (problematicDevices s.devices).length = 0 →
        applyAct env Act.alertTick s = s
          ∧ activeAlertDevice (problematicDevices s.devices)
              s.currentAlertIndex = none) := by
  have hmod : alertStep 3 (alertStep 3 (alertStep 3 i)) = i % 3 := by
    simp only [alertStep]
    omega
  refine ⟨?_, hmod, ?_, ?_⟩
  · intro h
    simp only [alertStep]
    omega
  · intro pd h3
    rw [hmod]
    simp only [activeAlertDevice, h3]
    norm_num
  · intro env s hr hlen
    have hcons := reachable_consistent env s hr
    exact ⟨alertTick_noop env s hcons hlen, by simp [activeAlertDevice, hlen]⟩

/-- Witness for the amended C7: starting index 2 returns after three
ticks, starting index 5 lands on 5 mod 3, the displayed device over a
concrete three-element list is restored, and the empty-list tick is
inert on the device-free fixture state. -/
theorem alert_period_three_amended_witness :
    alertStep 3 (alertStep 3 (alertStep 3 2)) = 2
    ∧ alertStep 3 (alertStep 3 (alertStep 3 5)) = 5 % 3
    ∧ activeAlertDevice [devOff1, devCrit1, devOff2]
        (alertStep 3 (alertStep 3 (alertStep 3 2)))
        = activeAlertDevice [devOff1, devCrit1, devOff2] 2
    ∧ applyAct envTT Act.alertTick sActive = sActive :=
  ⟨(alert_period_three_amended 2).1 (by decide),
   (alert_period_three_amended 5).2.1,
   (alert_period_three_amended 2).2.2.1 [devOff1, devCrit1, devOff2] (by decide),
   ((alert_period_three_amended 2).2.2.2 envTT sActive
      ⟨[Act.setKioskActive true 600], rfl⟩ (by decide)).1⟩

/-- Witness for the amended C3 at the sleeping fixture state. -/
theorem sleeping_halts_view_rotator_only_witness :
    applyAct envTT Act.viewTick sAsleep = sAsleep
    ∧ (applyAct envTT Act.alertTick sAsleep).currentAlertIndex
        = (sAsleep.currentAlertIndex + 1)
            % (problematicDevices sAsleep.devices).length :=
  ⟨(sleeping_halts_view_rotator_only envTT sAsleep ⟨actsAsleep, rfl⟩
      (by decide)).1,
   (sleeping_halts_view_rotator_only envTT sAsleep ⟨actsAsleep, rfl⟩
      (by decide)).2 (by decide) (by decide)⟩

/-! ### C8: the PIN guard -/

/-- The PIN state after opening the dialog, failing once with `1234`,
and typing the (default) correct PIN `0000`. -/
def pinAfterFailure : PinState :=
  setAuthPin "0000"
    (handleAuthSubmit none
      (setAuthPin "1234"
        (handleOpenKioskSettings
          { authPin := "", authError := "", isAuthModalOpen := false,
            isKioskSettingsOpen := false })))

/-- C8 counterexample: after a failed attempt, submitting the correct
default PIN opens the settings panel but does not clear the error
state — `authError` still reads `Incorrect PIN` — so the claim that a
match clears any error state is false. -/
theorem pin_match_keeps_error_cex :
    pinAfterFailure.authError = "Incorrect PIN"
    ∧ pinAfterFailure.authPin = "0000"
    ∧ (handleAuthSubmit none pinAfterFailure).isKioskSettingsOpen = true
    ∧ (handleAuthSubmit none pinAfterFailure).authError ≠ "" :=
  ⟨by decide, by decide, by decide, by decide⟩

/-- C8 amended: `submitPin` compares the candidate against the stored
PIN, defaulting to `0000` when none is stored; on a match it closes
the auth dialog and opens the settings panel, leaving the error state
unchanged (the error is cleared only when the auth dialog next
opens); on a mismatch it sets the error state and clears the
candidate input, never retaining the failed PIN. -/
theorem pin_submit_behaviour (stored : Option String) (s : PinState) :
    (s.authPin = storedPinOrDefault stored →
      (handleAuthSubmit stored s).isKioskSettingsOpen = true
      ∧ (handleAuthSubmit stored s).isAuthModalOpen = false
      ∧ (handleAuthSubmit stored s).authError = s.authError)
    ∧ (s.authPin ≠ storedPinOrDefault stored →
      (handleAuthSubmit stored s).authError = "Incorrect PIN"
      ∧ (handleAuthSubmit stored s).authPin = ""
      ∧ (handleAuthSubmit stored s).isKioskSettingsOpen = s.isKioskSettingsOpen)
    ∧ storedPinOrDefault none = "0000"
    ∧ (handleOpenKioskSettings
        { s with isKioskSettingsOpen := false }).authError = ""
    ∧ (handleOpenKioskSettings
        { s with isKioskSettingsOpen := false }).authPin = "" := by
  refine ⟨fun h => ?_, fun h => ?_, rfl, ?_, ?_⟩
  · refine ⟨?_, ?_, ?_⟩ <;> simp [handleAuthSubmit, h]
  · refine ⟨?_, ?_, ?_⟩ <;> simp [handleAuthSubmit, h]
  · simp [handleOpenKioskSettings]
  · simp [handleOpenKioskSettings]

/-- Witness for the amended C8: a matching submission on the
post-failure state and a failing submission on a fresh dialog. -/
theorem pin_submit_behaviour_witness :
    (handleAuthSubmit none pinAfterFailure).isKioskSettingsOpen = true
    ∧ (handleAuthSubmit none pinAfterFailure).authError
        = pinAfterFailure.authError
    ∧ (handleAuthSubmit none
        { authPin := "9999", authError := "", isAuthModalOpen := true,
          isKioskSettingsOpen := false }).authError = "Incorrect PIN"
    ∧ (handleAuthSubmit none
        { authPin := "9999", authError := "", isAuthModalOpen := true,
          isKioskSettingsOpen := false }).authPin = "" :=
  ⟨((pin_submit_behaviour none pinAfterFailure).1 (by decide)).1,
   ((pin_submit_behaviour none pinAfterFailure).1 (by decide)).2.2,
   ((pin_submit_behaviour none
      { authPin := "9999", authError := "", isAuthModalOpen := true,
        isKioskSettingsOpen := false }).2.1 (by decide)).1,
   ((pin_submit_behaviour none
      { authPin := "9999", authError := "", isAuthModalOpen := true,
        isKioskSettingsOpen := false }).2.1 (by decide)).2.1⟩

/-! ### C9: the wake lock mirrors kiosk mode -/

/-- A host environment without the wake-lock capability. -/
def envFF : WakeEnv := { supported := false, granted := false }

/-- Session under `envFF`: activate kiosk mode at 10:00. -/
def sActiveFF : DashState :=
  applyAll envFF [Act.setKioskActive true 600] initState

/-- C9: when the host grants the wake lock, every reachable state has
`isWakeLockActive` (and the sentinel) equal to `isKioskActive`; when
acquisition fails, the failing request leaves the state completely
unchanged (the error is swallowed) and no reachable state ever holds
the lock; and the wake-lock effect never touches the view, alert or
sleep state. -/
theorem wake_lock_mirrors_kiosk (env : WakeEnv) (s : DashState) :
    (env.supported = true → env.granted = true → Reachable env s →
      s.isWakeLockActive = s.isKioskActive ∧ s.wakeLockRef = s.isKioskActive)
    ∧ (s.isKioskActive = true →
        env.supported = false ∨ env.granted = false →
        wakeLockEffect env s = s)
    ∧ ((env.supported = false ∨ env.granted = false) → Reachable env s →
        s.isWakeLockActive = false)
    ∧ (wakeLockEffect env s).viewMode = s.viewMode
    ∧ (wakeLockEffect env s).currentAlertIndex = s.currentAlertIndex
    ∧ (wakeLockEffect env s).isSleeping = s.isSleeping
    ∧ (wakeLockEffect env s).scheduleEnabled = s.scheduleEnabled := by
  refine ⟨fun hs hg hr => reachable_wakeMirrors env s hs hg hr,
    fun hact hfail => wakeLockEffect_failure env s hact hfail,
    fun hfail hr => (reachable_wakeFree env s hfail hr).1,
    ?_, ?_, ?_, ?_⟩ <;> simp

/-- Witness for C9: under a granting host the active fixture state
holds the lock; under a non-supporting host the request is a no-op and
the lock is never held. -/
theorem wake_lock_mirrors_kiosk_witness :
    (sActive.isWakeLockActive = sActive.isKioskActive
      ∧ sActive.wakeLockRef = sActive.isKioskActive)
    ∧ wakeLockEffect envFF sActiveFF = sActiveFF
    ∧ sActiveFF.isWakeLockActive = false :=
  ⟨(wake_lock_mirrors_kiosk envTT sActive).1 rfl rfl
      ⟨[Act.setKioskActive true 600], rfl⟩,
   (wake_lock_mirrors_kiosk envFF sActiveFF).2.1 (by decide) (Or.inl rfl),
   (wake_lock_mirrors_kiosk envFF sActiveFF).2.2.1 (Or.inl rfl)
      ⟨[Act.setKioskActive true 600], rfl⟩⟩

/-! ### C10: logout always exits kiosk mode -/

/-- C10: from any prior state — including one restored from a stored
`kiosk`-role session, which forces kiosk mode on — `handleLogout`
clears the stored session and the current user and sets
`isKioskActive` false. -/
theorem logout_always_exits_kiosk (s : AppState) :
    (handleLogout s).isKioskActive = false
    ∧ (handleLogout s).storedUser = none
    ∧ (handleLogout s).currentUser = none
    ∧ (handleLogout (restoreSession s)).isKioskActive = false
    ∧ (s.storedUser = some
          { username := "kiosk1", fullName := "Kiosk Display",
            role := "kiosk" } →
        (restoreSession s).isKioskActive = true) := by
  refine ⟨rfl, rfl, rfl, rfl, fun h => ?_⟩
  simp [restoreSession, h]

/-- Witness for C10 on a restored kiosk session. -/
theorem logout_always_exits_kiosk_witness :
    (handleLogout
      { activeTab := Tab.dashboard,
        storedUser := some
          { username := "kiosk1", fullName := "Kiosk Display",
            role := "kiosk" },
        currentUser := none, isKioskActive := false }).isKioskActive = false
    ∧ (restoreSession
        { activeTab := Tab.dashboard,
          storedUser := some
            { username := "kiosk1", fullName := "Kiosk Display",
              role := "kiosk" },
          currentUser := none, isKioskActive := false }).isKioskActive = true :=
  ⟨(logout_always_exits_kiosk
      { activeTab := Tab.dashboard,
        storedUser := some
          { username := "kiosk1", fullName := "Kiosk Display",
            role := "kiosk" },
        currentUser := none, isKioskActive := false }).1,
   (logout_always_exits_kiosk
      { activeTab := Tab.dashboard,
        storedUser := some
          { username := "kiosk1", fullName := "Kiosk Display",
            role := "kiosk" },
        currentUser := none, isKioskActive := false }).2.2.2.2 rfl⟩
